import Mathlib

/-!
Verification of the griptape FalkorDB graph-store driver
(`src/griptape/drivers/graph/falkordb_graph_store_driver.py`) and the
audio-transcription retry wrapper
(`src/griptape/drivers/audio_transcription/base_audio_transcription_driver.py`),
as a shallow embedding: the driver's Cypher queries are modelled by their
semantics over an explicit graph state, and the retry wrapper by an explicit
attempt-indexed recursion that records the lifecycle events it publishes.
-/

namespace GriptapeSpec

/-! ## Audio transcription retry wrapper

`BaseAudioTranscriptionDriver.run` wraps the abstract `try_run` in a retry
loop.  `before_run` publishes a `StartAudioTranscriptionEvent` to the event
bus and `after_run` publishes a `FinishAudioTranscriptionEvent`; both calls,
together with `try_run` and the `return`, sit inside the retry attempt scope.
-/

/-- The two lifecycle event kinds published to the event bus by
`before_run` / `after_run`. -/
inductive AudioTranscriptionEvent where
  | StartAudioTranscriptionEvent
  | FinishAudioTranscriptionEvent
deriving Repr, DecidableEq

/-- `before_run` publishes a start event to the process-wide event bus,
modelled as appending to the list of published events. -/
def before_run (bus : List AudioTranscriptionEvent) : List AudioTranscriptionEvent :=
  bus ++ [AudioTranscriptionEvent.StartAudioTranscriptionEvent]

/-- `after_run` publishes a finish event to the event bus. -/
def after_run (bus : List AudioTranscriptionEvent) : List AudioTranscriptionEvent :=
  bus ++ [AudioTranscriptionEvent.FinishAudioTranscriptionEvent]

/-- Modelled from the spec: the bounded-retry iteration supplied by
`ExponentialBackoffMixin.retrying()` is not under `src/`; per spec section 4.1
it allows a bounded number of sequential attempts, treats any exception raised
inside the attempt scope as retryable, and on budget exhaustion the operation
fails with the generic error (the generic message itself,
"Failed to run audio transcription", is the one raised by `run` in
`base_audio_transcription_driver.py`; the per-attempt body order -
`before_run`, `try_run`, `after_run`, `return` - is also from `run`).

`try_run` is the abstract capability: for attempt number `i` (1-based) it
either returns a result or raises, modelled as `Except String α` where the
error carries the underlying exception message.  The value returned is the
outcome of `run` paired with the events published on the bus, in order. -/
def runAttempts (try_run : Nat → Except String α) :
    Nat → Nat → Except String α × List AudioTranscriptionEvent
  | 0, _ => (Except.error "Failed to run audio transcription", [])
  | n + 1, i =>
    match try_run i with
    | Except.ok v => (Except.ok v, after_run (before_run []))
    | Except.error _ =>
      let rest := runAttempts try_run n (i + 1)
      (rest.1, before_run [] ++ rest.2)

/-- `run`: execute up to `maxAttempts` attempts, starting at attempt 1. -/
def run (maxAttempts : Nat) (try_run : Nat → Except String α) :
    Except String α × List AudioTranscriptionEvent :=
  runAttempts try_run maxAttempts 1

/-! ## FalkorDB graph store driver

The store state visible to the driver: nodes carrying the `id` property
(a single node label per store instance), and typed directed edges
`(source id, edge type, destination id)`.  The driver's Cypher queries are
modelled by their effect on this state.
-/

/-- Graph state: node ids (all under the store's single node label) and
typed directed edges `(src, type, dst)`. -/
structure Graph where
  nodes : List String
  edges : List (String × String × String)
deriving Repr, DecidableEq

/-- The empty store. -/
def emptyGraph : Graph := ⟨[], []⟩

/-- Python `s.replace(a, b)` for single-character pattern and replacement:
replaces every occurrence. -/
def pyReplace (s : String) (a b : Char) : String :=
  String.mk (s.data.map fun c => if c = a then b else c)

/-- Python `s.upper()` (per-character upper-casing). -/
def pyUpper (s : String) : String :=
  String.mk (s.data.map Char.toUpper)

/-- The relation-label normalization `rel.replace(" ", "_").upper()` applied
by `upsert_triplet` (and by `delete`'s inner `delete_rel`) before the label is
spliced into the query as the edge type. -/
def normalizeRel (rel : String) : String :=
  pyUpper (pyReplace rel ' ' '_')

/-- Semantics of `MERGE (n:Label {id:$id})`: create the node only if no node
with that id exists. -/
def mergeNode (g : Graph) (id : String) : Graph :=
  if id ∈ g.nodes then g else { g with nodes := g.nodes ++ [id] }

/-- Semantics of `MERGE (n1)-[:TYPE]->(n2)` between two matched nodes:
create the typed edge only if not already present. -/
def mergeEdge (g : Graph) (subj rel obj : String) : Graph :=
  if (subj, rel, obj) ∈ g.edges then g
  else { g with edges := g.edges ++ [(subj, rel, obj)] }

/-- `upsert_triplet(subj, rel, obj)`: the prepared statement
`MERGE (n1 {id:$subj}) MERGE (n2 {id:$obj}) MERGE (n1)-[:REL]->(n2)`
where `REL` is the normalized relation label. -/
def upsert_triplet (g : Graph) (subj rel obj : String) : Graph :=
  let g1 := mergeNode g subj
  let g2 := mergeNode g1 obj
  mergeEdge g2 subj (normalizeRel rel) obj

/-- `upsert_node(node_id)`: implemented as `upsert_triplet(node_id, "", "")`. -/
def upsert_node (g : Graph) (node_id : String) : Graph :=
  upsert_triplet g node_id "" ""

/-- Multiplicity of the edge `e` in the store. -/
def edgeCount (g : Graph) (e : String × String × String) : Nat :=
  (g.edges.filter fun x => decide (x = e)).length

/-- Inner `delete_rel(subj, obj, rel)` of `delete`: normalizes `rel` and runs
`MATCH (n1)-[r:REL]->(n2) WHERE n1.id = $subj AND n2.id = $obj DELETE r`,
removing every edge of the normalized type from `subj` to `obj`. -/
def delete_rel (g : Graph) (subj obj rel : String) : Graph :=
  { g with
    edges := g.edges.filter fun e =>
      decide ¬(e.1 = subj ∧ e.2.1 = normalizeRel rel ∧ e.2.2 = obj) }

/-- Inner `delete_entity(entity)` of `delete`:
`MATCH (n) WHERE n.id = $entity DELETE n`. -/
def delete_entity (g : Graph) (entity : String) : Graph :=
  { g with nodes := g.nodes.filter fun n => decide (n ≠ entity) }

/-- Number of matches of the pattern `(n1)--()` with `n1.id = $entity`:
the entity's incident edges, either direction. -/
def incidentCount (g : Graph) (entity : String) : Nat :=
  (g.edges.filter fun e => decide (e.1 = entity ∨ e.2.2 = entity)).length

/-- The result set of the inner `check_edges` query
`MATCH (n1)--() WHERE n1.id = $entity RETURN count(*)`.  A Cypher `count(*)`
aggregation with no grouping keys returns exactly one row even when the
`MATCH` finds nothing (the row then holds 0), so the result set always has
exactly one row. -/
def countResultSet (g : Graph) (entity : String) : List (List Nat) :=
  [[incidentCount g entity]]

/-- Inner `check_edges(entity)` of `delete`: `bool(result.result_set)`,
i.e. whether the result set of the count query is non-empty. -/
def check_edges (g : Graph) (entity : String) : Bool :=
  !(countResultSet g entity).isEmpty

/-- `delete(subj, rel, obj)`: `delete_rel(subj, obj, rel)`, then
`delete_entity(subj)` if `not check_edges(subj)`, then `delete_entity(obj)`
if `not check_edges(obj)`. -/
def delete (g : Graph) (subj rel obj : String) : Graph :=
  let g1 := delete_rel g subj obj rel
  let g2 := if !check_edges g1 subj then delete_entity g1 subj else g1
  if !check_edges g2 obj then delete_entity g2 obj else g2

/-! ### get_rel_map

The traversal query built by `get_rel_map` splices `depth` and `limit`
directly into the query text; the backing store returns one row per path
`p = (n1)-[e*1..depth]->(z)` with `n1.id IN subjs`, truncated to `limit`
rows, and the driver folds the rows into a map from the path's start id to
the flat alternating list `[rel_1, node_1, rel_2, node_2, ...]`.
-/

/-- A query issued to the backing store by `get_rel_map`, recording the
bounds spliced into the query text and the `$subjs` parameter. -/
structure IssuedQuery where
  depth : Nat
  limit : Nat
  subjs : List String
deriving Repr, DecidableEq

/-- Outgoing paths of exactly `k` hops from node id `n`, as lists of
`(edge type, destination id)` steps. -/
def pathsOfLen (g : Graph) (n : String) : Nat → List (List (String × String))
  | 0 => [[]]
  | k + 1 =>
    (g.edges.filter fun e => decide (e.1 = n)).flatMap fun e =>
      (pathsOfLen g e.2.2 k).map fun p => (e.2.1, e.2.2) :: p

/-- Rows of the traversal query before `LIMIT`: for each subject id present
in the store, every outgoing path of 1 to `depth` hops, tagged with the
start id (the first node of the path, whose `id` keys the result map). -/
def allPaths (g : Graph) (subjs : List String) (depth : Nat) :
    List (String × List (String × String)) :=
  subjs.flatMap fun s =>
    if s ∈ g.nodes then
      (List.range depth).flatMap fun k =>
        (pathsOfLen g s (k + 1)).map fun p => (s, p)
    else []

/-- The flat alternating `[rel, dest id, rel, dest id, ...]` list the driver
builds from one path row (`path.append(edge.relation)`,
`path.append(dest_id)` per hop). -/
def flattenPath (p : List (String × String)) : List String :=
  p.flatMap fun step => [step.1, step.2]

/-- `paths = rel_map.get(subj_id, []); paths.append(path);
rel_map[subj_id] = paths` — append one flattened path under its start id in
the association-list model of the Python dict. -/
def insertPath (m : List (String × List (List String))) (subj : String)
    (path : List String) : List (String × List (List String)) :=
  match m with
  | [] => [(subj, [path])]
  | (s, ps) :: rest =>
    if s = subj then (s, ps ++ [path]) :: rest
    else (s, ps) :: insertPath rest subj path

/-- Fold the query rows into the `rel_map` dict. -/
def buildRelMap (rows : List (String × List (String × String))) :
    List (String × List (List String)) :=
  rows.foldl (fun m r => insertPath m r.1 (flattenPath r.2)) []

/-- `get_rel_map(subjs, depth, limit)`: returns the relationship map
together with the list of queries issued to the backing store.  If `subjs`
is `None` or empty it returns the empty map immediately, issuing no query;
otherwise it issues the traversal query with `depth` and `limit` spliced in
unvalidated and folds the returned rows. -/
def get_rel_map (g : Graph) (subjs : Option (List String))
    (depth limit : Nat) :
    List (String × List (List String)) × List IssuedQuery :=
  match subjs with
  | none => ([], [])
  | some ss =>
    if ss.length = 0 then ([], [])
    else
      let rows := (allPaths g ss depth).take limit
      (buildRelMap rows, [⟨depth, limit, ss⟩])

/-! ### Bootstrap (construction)

`__init__` connects, then inside a `try` block checks `index_exists("id")`
and, if absent, issues `CREATE INDEX FOR (n:Label) ON (n.id)`.  A
`redis.exceptions.ResponseError` whose message contains "already indexed" is
absorbed with a logged warning; any other error propagates and construction
fails.
-/

/-- Whether the character list `pat` occurs as a contiguous run of `s`. -/
def substrAux (pat : List Char) : List Char → Bool
  | [] => pat.isPrefixOf []
  | c :: cs => pat.isPrefixOf (c :: cs) || substrAux pat cs

/-- Python `pat in s` substring test. -/
def pyContains (s pat : String) : Bool :=
  substrAux pat.data s.data

/-- Outcome of the index-creation query against the backing store:
success, a `redis.exceptions.ResponseError` with a message, or an exception
of any other type. -/
inductive DBOutcome where
  | ok
  | respError (msg : String)
  | otherError (msg : String)
deriving Repr, DecidableEq

/-- Result of driver construction: success carrying the warnings logged, or
a propagated exception carrying its message. -/
inductive BootstrapResult where
  | success (warnings : List String)
  | raised (msg : String)
deriving Repr, DecidableEq

/-- The bootstrap logic of `__init__`: skip index creation when
`index_exists("id")` already holds; otherwise issue the create and absorb
exactly a `ResponseError` containing "already indexed" (logging a warning),
re-raising anything else. -/
def bootstrap (idIndexExists : Bool) (createIndexOutcome : DBOutcome) :
    BootstrapResult :=
  if idIndexExists then BootstrapResult.success []
  else
    match createIndexOutcome with
    | DBOutcome.ok => BootstrapResult.success []
    | DBOutcome.respError msg =>
      if pyContains msg "already indexed" then
        BootstrapResult.success ["Index on id already exists: " ++ msg]
      else BootstrapResult.raised msg
    | DBOutcome.otherError msg => BootstrapResult.raised msg

/-! ## Helper lemmas -/

theorem mergeNode_edges (g : Graph) (id : String) :
    (mergeNode g id).edges = g.edges := by
  unfold mergeNode; split <;> rfl

theorem mem_mergeNode_self (g : Graph) (id : String) :
    id ∈ (mergeNode g id).nodes := by
  unfold mergeNode; split
  · assumption
  · simp

theorem mem_mergeNode_of_mem {x : String} (g : Graph) (id : String)
    (h : x ∈ g.nodes) : x ∈ (mergeNode g id).nodes := by
  unfold mergeNode; split
  · exact h
  · simp [h]

theorem mergeNode_eq_of_mem {g : Graph} {id : String} (h : id ∈ g.nodes) :
    mergeNode g id = g := by
  unfold mergeNode; simp [h]

theorem mergeNode_nodup {g : Graph} (id : String) (h : g.nodes.Nodup) :
    (mergeNode g id).nodes.Nodup := by
  unfold mergeNode; split
  · exact h
  · next hmem => simp [List.nodup_append, h, hmem]

theorem mergeEdge_nodes (g : Graph) (s rel o : String) :
    (mergeEdge g s rel o).nodes = g.nodes := by
  unfold mergeEdge; split <;> rfl

theorem mem_mergeEdge_self (g : Graph) (s rel o : String) :
    (s, rel, o) ∈ (mergeEdge g s rel o).edges := by
  unfold mergeEdge; split
  · assumption
  · simp

theorem mergeEdge_eq_of_mem {g : Graph} {s rel o : String}
    (h : (s, rel, o) ∈ g.edges) : mergeEdge g s rel o = g := by
  unfold mergeEdge; simp [h]

theorem mergeEdge_nodup {g : Graph} (s rel o : String) (h : g.edges.Nodup) :
    (mergeEdge g s rel o).edges.Nodup := by
  unfold mergeEdge; split
  · exact h
  · next hmem => simp [List.nodup_append, h, hmem]

theorem mem_mergeEdge_elim {g : Graph} {s rel o : String}
    {e : String × String × String}
    (he : e ∈ (mergeEdge g s rel o).edges) : e ∈ g.edges ∨ e = (s, rel, o) := by
  unfold mergeEdge at he
  split at he
  · exact Or.inl he
  · rcases List.mem_append.mp he with h | h
    · exact Or.inl h
    · exact Or.inr (List.mem_singleton.mp h)

theorem length_filter_eq_one_of_nodup {α : Type} [DecidableEq α] {l : List α}
    {x : α} (hn : l.Nodup) (hm : x ∈ l) :
    (l.filter fun e => decide (e = x)).length = 1 := by
  have h := List.count_eq_one_of_mem hn hm
  rw [← List.countP_eq_length_filter]
  exact h

theorem upsert_triplet_subj_mem (g : Graph) (s r o : String) :
    s ∈ (upsert_triplet g s r o).nodes := by
  unfold upsert_triplet
  rw [mergeEdge_nodes]
  exact mem_mergeNode_of_mem _ o (mem_mergeNode_self g s)

theorem upsert_triplet_obj_mem (g : Graph) (s r o : String) :
    o ∈ (upsert_triplet g s r o).nodes := by
  unfold upsert_triplet
  rw [mergeEdge_nodes]
  exact mem_mergeNode_self _ o

theorem upsert_triplet_edge_mem (g : Graph) (s r o : String) :
    (s, normalizeRel r, o) ∈ (upsert_triplet g s r o).edges := by
  unfold upsert_triplet
  exact mem_mergeEdge_self _ s (normalizeRel r) o

theorem check_edges_true (g : Graph) (entity : String) :
    check_edges g entity = true := rfl

theorem delete_edges_eq (g : Graph) (s r o : String) :
    (delete g s r o).edges = (delete_rel g s o r).edges := by
  unfold delete
  simp [check_edges_true]

theorem delete_nodes_eq (g : Graph) (s r o : String) :
    (delete g s r o).nodes = g.nodes := by
  unfold delete
  simp [check_edges_true, delete_rel]

theorem runAttempts_all_fail {α : Type} (f : Nat → Except String α)
    (hfail : ∀ i, ∃ e, f i = Except.error e) :
    ∀ n i, runAttempts f n i =
      (Except.error "Failed to run audio transcription",
       List.replicate n AudioTranscriptionEvent.StartAudioTranscriptionEvent) := by
  intro n
  induction n with
  | zero => intro i; rfl
  | succ n ih =>
    intro i
    obtain ⟨e, he⟩ := hfail i
    simp [runAttempts, he, before_run, ih (i + 1), List.replicate_succ]

theorem runAttempts_succeeds_at {α : Type} (f : Nat → Except String α) (v : α)
    (k : Nat) (hok : f k = Except.ok v) :
    ∀ n i, i ≤ k → k < i + n →
      (∀ j, i ≤ j → j < k → ∃ e, f j = Except.error e) →
      runAttempts f n i =
        (Except.ok v,
         List.replicate (k - i + 1)
             AudioTranscriptionEvent.StartAudioTranscriptionEvent ++
           [AudioTranscriptionEvent.FinishAudioTranscriptionEvent]) := by
  intro n
  induction n with
  | zero => intro i h1 h2 _; omega
  | succ n ih =>
    intro i h1 h2 hfail
    by_cases hik : i = k
    · subst hik
      simp [runAttempts, hok, after_run, before_run]
    · have hlt : i < k := lt_of_le_of_ne h1 hik
      obtain ⟨e, he⟩ := hfail i le_rfl hlt
      have hrec := ih (i + 1) (by omega) (by omega)
        (fun j hj1 hj2 => hfail j (by omega) hj2)
      have hrepl : k - i + 1 = (k - (i + 1) + 1) + 1 := by omega
      simp [runAttempts, he, before_run, hrec, hrepl, List.replicate_succ]

/-! ## Claim theorems -/

/-- Claim C1: the spec says `delete(subj, rel, obj)` removes the `subj`
(resp. `obj`) node when it has zero incident edges afterwards, so that after
deleting the only triplet `(a, r, b)` neither node remains.  The code never
removes a node: `check_edges` tests `bool(result.result_set)` of a
`RETURN count(*)` query, and an aggregate query always yields exactly one
row (holding 0 when nothing matches), so `check_edges` is identically true
and `delete_entity` is unreachable.  Starting from only the triplet
`(a, r, b)`, after `delete(a, r, b)` the edge is gone but both nodes
remain. -/
theorem C1_delete_never_removes_nodes :
    (∀ (g : Graph) (entity : String), check_edges g entity = true) ∧
    (∀ (g : Graph) (s r o : String), (delete g s r o).nodes = g.nodes) ∧
    (delete (upsert_triplet emptyGraph "a" "r" "b") "a" "r" "b").nodes =
      ["a", "b"] ∧
    (delete (upsert_triplet emptyGraph "a" "r" "b") "a" "r" "b").edges = [] := by
  refine ⟨fun g entity => rfl, fun g s r o => delete_nodes_eq g s r o, ?_, ?_⟩ <;> decide

/-- Claim C2: with a retry policy allowing `N` attempts and a `try_run` that
raises on every attempt, `run` raises the generic
"Failed to run audio transcription" error (the underlying cause is not
preserved) after exactly `N` attempts, publishing one start event per
attempt and no finish event. -/
theorem C2_retry_exhaustion {α : Type} (N : Nat) (f : Nat → Except String α)
    (hfail : ∀ i, ∃ e, f i = Except.error e) :
    run N f =
      (Except.error "Failed to run audio transcription",
       List.replicate N AudioTranscriptionEvent.StartAudioTranscriptionEvent) ∧
    (run N f).2.count AudioTranscriptionEvent.StartAudioTranscriptionEvent = N ∧
    (run N f).2.count AudioTranscriptionEvent.FinishAudioTranscriptionEvent = 0 := by
  have h := runAttempts_all_fail f hfail N 1
  refine ⟨h, ?_, ?_⟩ <;> simp [run, h, List.count_replicate]

theorem C2_retry_exhaustion_witness :
    run 2 (fun _ => (Except.error "boom" : Except String Nat)) =
      (Except.error "Failed to run audio transcription",
       List.replicate 2 AudioTranscriptionEvent.StartAudioTranscriptionEvent) ∧
    (run 2 (fun _ => (Except.error "boom" : Except String Nat))).2.count
        AudioTranscriptionEvent.StartAudioTranscriptionEvent = 2 ∧
    (run 2 (fun _ => (Except.error "boom" : Except String Nat))).2.count
        AudioTranscriptionEvent.FinishAudioTranscriptionEvent = 0 :=
  C2_retry_exhaustion 2 _ (fun _ => ⟨"boom", rfl⟩)

/-- Claim C3: if `try_run` fails on every attempt before attempt `k` and
succeeds on attempt `k` within the budget `N`, then `run` returns the
successful result; one start event is published per attempt (before the
attempt's work), and exactly one finish event is published, on the
succeeding attempt only — the event trace is `k` starts followed by one
finish. -/
theorem C3_retry_success {α : Type} (N k : Nat) (f : Nat → Except String α)
    (v : α) (hk1 : 1 ≤ k) (hkN : k ≤ N)
    (hfail : ∀ j, 1 ≤ j → j < k → ∃ e, f j = Except.error e)
    (hok : f k = Except.ok v) :
    run N f =
      (Except.ok v,
       List.replicate k AudioTranscriptionEvent.StartAudioTranscriptionEvent ++
         [AudioTranscriptionEvent.FinishAudioTranscriptionEvent]) ∧
    (run N f).2.count AudioTranscriptionEvent.StartAudioTranscriptionEvent = k ∧
    (run N f).2.count AudioTranscriptionEvent.FinishAudioTranscriptionEvent = 1 := by
  have h := runAttempts_succeeds_at f v k hok N 1 hk1 (by omega) hfail
  have hrepl : k - 1 + 1 = k := by omega
  rw [hrepl] at h
  refine ⟨h, ?_, ?_⟩ <;> simp [run, h, List.count_replicate]

theorem C3_retry_success_witness :
    run 3 (fun i => if i < 3 then (Except.error "boom" : Except String Nat)
                    else Except.ok 42) =
      (Except.ok 42,
       List.replicate 3 AudioTranscriptionEvent.StartAudioTranscriptionEvent ++
         [AudioTranscriptionEvent.FinishAudioTranscriptionEvent]) ∧
    (run 3 (fun i => if i < 3 then (Except.error "boom" : Except String Nat)
                     else Except.ok 42)).2.count
        AudioTranscriptionEvent.StartAudioTranscriptionEvent = 3 ∧
    (run 3 (fun i => if i < 3 then (Except.error "boom" : Except String Nat)
                     else Except.ok 42)).2.count
        AudioTranscriptionEvent.FinishAudioTranscriptionEvent = 1 :=
  C3_retry_success 3 3 _ 42 (by decide) (by decide)
    (fun j _ hj => ⟨"boom", by simp [hj]⟩) rfl

/-- Claim C4 counterexample: `get_rel_map` with a `limit` of 0 (and with any
`depth`) does not raise: it issues the traversal query with `limit = 0`
spliced straight into the query text and silently returns the empty
mapping. -/
theorem C4_counterexample :
    get_rel_map (upsert_triplet emptyGraph "a" "r" "b") (some ["a"]) 2 0 =
      ([], [⟨2, 0, ["a"]⟩]) := by decide

/-- Claim C4 (amended): `get_rel_map` performs no validation of `depth` or
`limit`; for every non-empty subject list both bounds are passed straight
through into the issued query, and a `limit` of 0 silently yields the empty
mapping instead of an error. -/
theorem C4_no_validation (g : Graph) (ss : List String) (depth limit : Nat)
    (h : ss ≠ []) :
    (get_rel_map g (some ss) depth limit).2 = [⟨depth, limit, ss⟩] ∧
    (get_rel_map g (some ss) depth 0).1 = [] := by
  have hlen : ¬ss.length = 0 := by
    simpa using h
  constructor <;> simp [get_rel_map, hlen, buildRelMap]

theorem C4_no_validation_witness :
    (get_rel_map emptyGraph (some ["a"]) 2 0).2 = [⟨2, 0, ["a"]⟩] ∧
    (get_rel_map emptyGraph (some ["a"]) 2 0).1 = [] :=
  C4_no_validation emptyGraph ["a"] 2 0 (by decide)

/-- Claim C5: bootstrap absorbs exactly the "index already exists" failure of
index creation — a `ResponseError` whose message contains "already indexed"
is logged as a warning and construction succeeds — while any other error
propagates and construction fails; a store whose `id` index already exists
(second driver construction) never raises. -/
theorem C5_bootstrap_absorbs_existing_index (msg : String) :
    (pyContains msg "already indexed" = true →
      bootstrap false (DBOutcome.respError msg) =
        BootstrapResult.success ["Index on id already exists: " ++ msg]) ∧
    (pyContains msg "already indexed" = false →
      bootstrap false (DBOutcome.respError msg) = BootstrapResult.raised msg) ∧
    bootstrap false (DBOutcome.otherError msg) = BootstrapResult.raised msg ∧
    (∀ outcome, bootstrap true outcome = BootstrapResult.success []) := by
  refine ⟨fun h => ?_, fun h => ?_, rfl, fun outcome => rfl⟩ <;>
    simp [bootstrap, h]

theorem C5_bootstrap_witness :
    bootstrap false (DBOutcome.respError "Attribute id is already indexed") =
      BootstrapResult.success
        ["Index on id already exists: Attribute id is already indexed"] ∧
    bootstrap false (DBOutcome.respError "boom") =
      BootstrapResult.raised "boom" :=
  ⟨(C5_bootstrap_absorbs_existing_index
      "Attribute id is already indexed").1 (by decide),
   (C5_bootstrap_absorbs_existing_index "boom").2.1 (by decide)⟩

/-- Claim C6 counterexample: `upsert_node("a")` creates the edge
`("a", "", "")`, whose object is the node with the empty-string id, not the
node `"a"` itself — the subject and object of the created edge differ, so
the triplet is not self-referential. -/
theorem C6_counterexample :
    (upsert_node emptyGraph "a").edges = [("a", "", "")] ∧
    ("a", "", "a") ∉ (upsert_node emptyGraph "a").edges ∧
    ("a" : String) ≠ "" := by decide

/-- Claim C6 (amended): `upsert_node(node_id)` is implemented as
`upsert_triplet(node_id, "", "")`: it merge-creates the node `node_id`, a
node whose id is the empty string, and an edge with empty (normalized)
relation type from `node_id` to that empty-id node; the edge is
self-referential only when `node_id` is itself the empty string. -/
theorem C6_upsert_node_degenerate (g : Graph) (node_id : String) :
    upsert_node g node_id = upsert_triplet g node_id "" "" ∧
    normalizeRel "" = "" ∧
    (node_id, "", "") ∈ (upsert_node g node_id).edges ∧
    "" ∈ (upsert_node g node_id).nodes := by
  refine ⟨rfl, rfl, ?_, ?_⟩
  · have h := upsert_triplet_edge_mem g node_id "" ""
    simpa using h
  · exact upsert_triplet_obj_mem g node_id "" ""

/-- Claim C7: `upsert_triplet` stores the relation label after replacing
spaces with underscores and upper-casing: every edge of the updated store is
either an old edge or the new edge carrying the normalized type; in
particular `upsert_triplet("x", "has parent", "y")` stores an edge of type
`HAS_PARENT`. -/
theorem C7_relation_normalization :
    (∀ (g : Graph) (subj rel obj : String) (e : String × String × String),
        e ∈ (upsert_triplet g subj rel obj).edges →
        e ∈ g.edges ∨ e = (subj, pyUpper (pyReplace rel ' ' '_'), obj)) ∧
    normalizeRel "has parent" = "HAS_PARENT" ∧
    (upsert_triplet emptyGraph "x" "has parent" "y").edges =
      [("x", "HAS_PARENT", "y")] := by
  refine ⟨?_, by decide, by decide⟩
  intro g subj rel obj e he
  have he2 : e ∈ (mergeEdge (mergeNode (mergeNode g subj) obj) subj
      (normalizeRel rel) obj).edges := he
  rcases mem_mergeEdge_elim he2 with h | h
  · rw [mergeNode_edges, mergeNode_edges] at h
    exact Or.inl h
  · exact Or.inr h

theorem C7_relation_normalization_witness :
    ("x", "HAS_PARENT", "y") ∈ emptyGraph.edges ∨
    ("x", "HAS_PARENT", "y") =
      ("x", pyUpper (pyReplace "has parent" ' ' '_'), "y") :=
  C7_relation_normalization.1 emptyGraph "x" "has parent" "y"
    ("x", "HAS_PARENT", "y") (by decide)

/-- Claim C8: `upsert_triplet` has merge semantics: applying it twice from
any state yields the same state as applying it once, and from any
duplicate-free state the result holds exactly one node `a`, one node `b`,
and one edge of the normalized type between them. -/
theorem C8_upsert_idempotent (g : Graph) (a r b : String) :
    upsert_triplet (upsert_triplet g a r b) a r b = upsert_triplet g a r b ∧
    (g.nodes.Nodup → g.edges.Nodup →
      (upsert_triplet g a r b).nodes.count a = 1 ∧
      (upsert_triplet g a r b).nodes.count b = 1 ∧
      edgeCount (upsert_triplet g a r b) (a, normalizeRel r, b) = 1) := by
  constructor
  · show mergeEdge
      (mergeNode (mergeNode (upsert_triplet g a r b) a) b) a (normalizeRel r) b =
      upsert_triplet g a r b
    rw [mergeNode_eq_of_mem (upsert_triplet_subj_mem g a r b),
      mergeNode_eq_of_mem (upsert_triplet_obj_mem g a r b),
      mergeEdge_eq_of_mem (upsert_triplet_edge_mem g a r b)]
  · intro hn hedges
    have hnodes_nodup : (upsert_triplet g a r b).nodes.Nodup := by
      unfold upsert_triplet
      rw [mergeEdge_nodes]
      exact mergeNode_nodup b (mergeNode_nodup a hn)
    have hedges_nodup : (upsert_triplet g a r b).edges.Nodup := by
      unfold upsert_triplet
      apply mergeEdge_nodup
      rw [mergeNode_edges, mergeNode_edges]
      exact hedges
    exact ⟨List.count_eq_one_of_mem hnodes_nodup (upsert_triplet_subj_mem g a r b),
      List.count_eq_one_of_mem hnodes_nodup (upsert_triplet_obj_mem g a r b),
      length_filter_eq_one_of_nodup hedges_nodup (upsert_triplet_edge_mem g a r b)⟩

theorem C8_upsert_idempotent_witness :
    upsert_triplet (upsert_triplet emptyGraph "a" "r" "b") "a" "r" "b" =
      upsert_triplet emptyGraph "a" "r" "b" ∧
    (upsert_triplet emptyGraph "a" "r" "b").nodes.count "a" = 1 ∧
    (upsert_triplet emptyGraph "a" "r" "b").nodes.count "b" = 1 ∧
    edgeCount (upsert_triplet emptyGraph "a" "r" "b")
      ("a", normalizeRel "r", "b") = 1 :=
  ⟨(C8_upsert_idempotent emptyGraph "a" "r" "b").1,
   (C8_upsert_idempotent emptyGraph "a" "r" "b").2 (by decide) (by decide)⟩

/-- Claim C9: `get_rel_map` with `subjs = None` or `subjs = []` returns the
empty mapping and issues no query to the backing store, for every `depth`
and `limit`. -/
theorem C9_empty_subjects_short_circuit (g : Graph) (depth limit : Nat) :
    get_rel_map g none depth limit = ([], []) ∧
    get_rel_map g (some []) depth limit = ([], []) :=
  ⟨rfl, rfl⟩

/-- Claim C10: `delete` normalizes the relation label exactly as
`upsert_triplet` does before matching the edge to remove: the edge created
by `upsert_triplet(a, r, b)` is gone after `delete(a, r, b)` for every raw
label `r`, while every pre-existing edge other than the targeted
`(a, normalized r, b)` survives `delete`. -/
theorem C10_delete_targets_upsert_edge (g : Graph) (a r b : String) :
    (a, normalizeRel r, b) ∉ (delete (upsert_triplet g a r b) a r b).edges ∧
    (∀ e, e ∈ g.edges → e ≠ (a, normalizeRel r, b) →
      e ∈ (delete g a r b).edges) := by
  constructor
  · rw [delete_edges_eq]
    intro hmem
    rcases List.mem_filter.mp hmem with ⟨_, hp⟩
    simp at hp
  · intro e he hne
    rw [delete_edges_eq]
    refine List.mem_filter.mpr ⟨he, ?_⟩
    simp only [decide_eq_true_eq]
    intro hcontra
    exact hne (by
      obtain ⟨h1, h2, h3⟩ := hcontra
      obtain ⟨e1, e2, e3⟩ := e
      simp_all)

theorem C10_delete_targets_upsert_edge_witness :
    ("a", "X", "c") ∈
      (delete (⟨["a", "b", "c"], [("a", "X", "c"), ("a", "HAS_PARENT", "b")]⟩ : Graph)
        "a" "has parent" "b").edges :=
  (C10_delete_targets_upsert_edge
      ⟨["a", "b", "c"], [("a", "X", "c"), ("a", "HAS_PARENT", "b")]⟩
      "a" "has parent" "b").2 ("a", "X", "c") (by decide) (by decide)

end GriptapeSpec
